import Mathlib

/-!
Shallow embedding of the synthahol-dx7 bank codec and routing table
(src/lib.rs, src/envelope.rs, src/read.rs, src/algorithms.rs).
Bytes are modelled as `Nat`; u8 wrap-around is written as explicit `% 256`.
-/

namespace DX7

/-- Rust `u8::clamp(lo, hi)` on `Nat` fields: `min (max x lo) hi`. -/
def clampN (x lo hi : Nat) : Nat := min (max x lo) hi

/-- Rust `i8::clamp(lo, hi)` on the signed detune field. -/
def clampI (x lo hi : Int) : Int := min (max x lo) hi

/-- src/read.rs `checksum`: fold of `u8::wrapping_sub` starting at 0,
masked to the low 7 bits.  `(sum + 256 - c % 256) % 256` is wrapping
subtraction for byte-valued accumulator and input. -/
def checksum (data : List Nat) : Nat :=
  (data.foldl (fun sum c => (sum + 256 - c % 256) % 256) 0) &&& 0x7F

/-- src/envelope.rs `Envelope`: four rates and four levels. -/
structure Envelope where
  rates : List Nat
  levels : List Nat
deriving DecidableEq, Repr

/-- src/envelope.rs `Envelope::from_rate_and_level`. -/
def Envelope.from_rate_and_level (rate level : Nat) : Envelope :=
  { rates := List.replicate 4 rate, levels := List.replicate 4 level }

/-- src/envelope.rs `Envelope::try_from_rates_and_levels`: both slices
must have length exactly 4. -/
def Envelope.try_from_rates_and_levels (rates levels : List Nat) : Option Envelope :=
  if rates.length = 4 ∧ levels.length = 4 then some { rates, levels } else none

/-- src/envelope.rs `Envelope::normalize`: clamp every rate and level to [0,99]. -/
def Envelope.normalize (e : Envelope) : Envelope :=
  { rates := e.rates.map (fun rate => clampN rate 0 99),
    levels := e.levels.map (fun level => clampN level 0 99) }

/-- src/envelope.rs `Envelope::default`. -/
def Envelope.defaultValue : Envelope :=
  { rates := [99, 99, 99, 99], levels := [99, 99, 99, 99] }

/-- src/lib.rs `OperatorMode`. -/
inductive OperatorMode where
  | Fixed
  | Ratio
deriving DecidableEq, Repr

/-- src/lib.rs `Operator`. -/
structure Operator where
  envelope : Envelope
  scaling_break_point : Nat
  scaling_left_depth : Nat
  scaling_right_depth : Nat
  scaling_left_curve : Nat
  scaling_right_curve : Nat
  detune : Int
  rate_scaling : Nat
  velocity_sensitivity : Nat
  modulation_sensitivity : Nat
  output_level : Nat
  mode : OperatorMode
  frequency_course : Nat
  frequency_fine : Nat
deriving DecidableEq, Repr

/-- src/lib.rs `Operator::normalize`: clamp all listed parameters; the
envelope and mode are kept unchanged (`..*self`). -/
def Operator.normalize (o : Operator) : Operator :=
  { o with
    scaling_break_point := clampN o.scaling_break_point 0 99
    scaling_left_depth := clampN o.scaling_left_depth 0 99
    scaling_right_depth := clampN o.scaling_right_depth 0 99
    scaling_left_curve := clampN o.scaling_left_curve 0 3
    scaling_right_curve := clampN o.scaling_right_curve 0 3
    detune := clampI o.detune 0 14
    rate_scaling := clampN o.rate_scaling 0 7
    velocity_sensitivity := clampN o.velocity_sensitivity 0 7
    modulation_sensitivity := clampN o.modulation_sensitivity 0 3
    output_level := clampN o.output_level 0 99
    frequency_course := clampN o.frequency_course 0 31
    frequency_fine := clampN o.frequency_fine 0 99 }

/-- src/lib.rs `Operator::default`: default envelope with the last level
set to 0. -/
def Operator.defaultValue : Operator :=
  { envelope := { Envelope.defaultValue with
                  levels := Envelope.defaultValue.levels.set 3 0 }
    scaling_break_point := 39
    scaling_left_depth := 0
    scaling_right_depth := 0
    scaling_left_curve := 0
    scaling_right_curve := 0
    detune := 0
    rate_scaling := 0
    velocity_sensitivity := 0
    modulation_sensitivity := 0
    output_level := 0
    mode := OperatorMode.Fixed
    frequency_course := 1
    frequency_fine := 0 }

/-- src/lib.rs `Waveform`. -/
inductive Waveform where
  | Triangle
  | SawDown
  | SawUp
  | Square
  | Sine
  | SampleAndHold
deriving DecidableEq, Repr

/-- src/lib.rs `TryFrom<u8> for Waveform`: codes 0..5 map to the six
variants, anything else is rejected. -/
def Waveform.tryFrom (value : Nat) : Option Waveform :=
  match value with
  | 0 => some Waveform.Triangle
  | 1 => some Waveform.SawDown
  | 2 => some Waveform.SawUp
  | 3 => some Waveform.Square
  | 4 => some Waveform.Sine
  | 5 => some Waveform.SampleAndHold
  | _ => none

/-- Drop trailing spaces (byte 0x20); the bytes reaching this point are
printable ASCII, where the only `char::is_whitespace` character is the
space, so this is Rust `str::trim_end` on the decoded name. -/
def trimEndSpaces (l : List Nat) : List Nat :=
  (l.reverse.dropWhile (fun c => c = 0x20)).reverse

/-- src/lib.rs `PresetName::from_lossy`: strip the high bit, keep
printable ASCII (0x20..0x7E), replace anything else with a space, take at
most 10 bytes, trim trailing spaces.  The name is kept as its byte list. -/
def PresetName.from_lossy (data : List Nat) : List Nat :=
  trimEndSpaces
    ((data.map (fun c =>
      if 0x20 ≤ c &&& 0x7F ∧ c &&& 0x7F < 0x7F then c &&& 0x7F else 0x20)).take 10)

/-- src/lib.rs `PresetName::default` is "INIT VOICE", as ASCII bytes. -/
def PresetName.defaultValue : List Nat :=
  [0x49, 0x4E, 0x49, 0x54, 0x20, 0x56, 0x4F, 0x49, 0x43, 0x45]

/-- src/lib.rs `Preset`. -/
structure Preset where
  name : List Nat
  operators : List Operator
  pitch_envelope : Envelope
  algorithm_id : Nat
  oscillator_key_sync : Bool
  feedback_level : Nat
  lfo_speed : Nat
  lfo_delay : Nat
  lfo_pitch_mod_depth : Nat
  lfo_pitch_mod_sensitivity : Nat
  lfo_amplitude_mod_depth : Nat
  lfo_waveform : Waveform
  lfo_key_sync : Bool
  transpose : Nat
deriving DecidableEq, Repr

/-- src/lib.rs `Preset::normalize`: clamp all parameters to valid ranges,
normalizing each operator and the pitch envelope. -/
def Preset.normalize (p : Preset) : Preset :=
  { name := p.name
    operators := p.operators.map Operator.normalize
    pitch_envelope := p.pitch_envelope.normalize
    algorithm_id := clampN p.algorithm_id 0 31
    oscillator_key_sync := p.oscillator_key_sync
    feedback_level := clampN p.feedback_level 0 7
    lfo_speed := clampN p.lfo_speed 0 99
    lfo_delay := clampN p.lfo_delay 0 99
    lfo_pitch_mod_depth := clampN p.lfo_pitch_mod_depth 0 99
    lfo_pitch_mod_sensitivity := clampN p.lfo_pitch_mod_sensitivity 0 99
    lfo_amplitude_mod_depth := clampN p.lfo_amplitude_mod_depth 0 99
    lfo_waveform := p.lfo_waveform
    lfo_key_sync := p.lfo_key_sync
    transpose := clampN p.transpose 0 48 }

/-- src/lib.rs `Preset::default`: operator 0 gets output level 99. -/
def Preset.defaultValue : Preset :=
  { name := PresetName.defaultValue
    operators := (List.replicate 6 Operator.defaultValue).set 0
      { Operator.defaultValue with output_level := 99 }
    pitch_envelope := Envelope.from_rate_and_level 99 50
    algorithm_id := 0
    oscillator_key_sync := true
    feedback_level := 0
    lfo_speed := 35
    lfo_delay := 0
    lfo_pitch_mod_depth := 0
    lfo_pitch_mod_sensitivity := 3
    lfo_amplitude_mod_depth := 0
    lfo_waveform := Waveform.Triangle
    lfo_key_sync := true
    transpose := 24 }

/-- Errors of src/read.rs `Bank::read`.  `lengthMismatch` stands for the
`.expect(..)` failure on envelope construction (the spec's LengthMismatch,
treated there as a programming-error guard). -/
inductive DecodeError where
  | truncated
  | invalidHeader
  | checksumMismatch (computed expected : Nat)
  | missingTerminator
  | invalidWaveform
  | lengthMismatch
deriving DecidableEq, Repr

/-- src/lib.rs `SYSEX_HEADER`. -/
def SYSEX_HEADER : List Nat := [0xF0, 0x43, 0x00, 0x09, 0x20, 0x00]

/-- One 17-byte packed operator record (src/read.rs `Bank::read`, operator
loop body): envelope rates/levels at 0..8, then the scaling, packed
detune/rate-scaling, velocity/modulation, output level, mode/coarse and
fine bytes. -/
def decodeOperator (po : List Nat) : Except DecodeError Operator :=
  match Envelope.try_from_rates_and_levels (po.take 4) ((po.drop 4).take 4) with
  | none => Except.error DecodeError.lengthMismatch
  | some envelope =>
    Except.ok
      { envelope
        scaling_break_point := po.getD 8 0
        scaling_left_depth := po.getD 9 0
        scaling_right_depth := po.getD 10 0
        scaling_left_curve := po.getD 11 0 &&& 0b0011
        scaling_right_curve := (po.getD 11 0 &&& 0b1100) >>> 2
        detune := 0 - Int.ofNat ((po.getD 12 0 &&& 0b1111000) >>> 3)
        rate_scaling := po.getD 12 0 &&& 0b0000111
        velocity_sensitivity := (po.getD 13 0 &&& 0b0011100) >>> 2
        modulation_sensitivity := po.getD 13 0 &&& 0b0000011
        output_level := po.getD 14 0
        mode := if po.getD 15 0 &&& 0b0000001 = 0 then OperatorMode.Fixed
                else OperatorMode.Ratio
        frequency_course := (po.getD 15 0 &&& 0b0111110) >>> 1
        frequency_fine := po.getD 16 0 }

/-- The 17-byte slice `packed_preset[i*17..(i+1)*17]` holding operator
record `i` of a slot. -/
def opRecord (pp : List Nat) (i : Nat) : List Nat :=
  (pp.drop (17 * i)).take 17

/-- The operator loop of src/read.rs `Bank::read`: decode the 17-byte
record at offset `17*i` for each index in order. -/
def decodeOperators (pp : List Nat) : List Nat → Except DecodeError (List Operator)
  | [] => Except.ok []
  | i :: rest =>
    match decodeOperator (opRecord pp i) with
    | Except.error e => Except.error e
    | Except.ok op =>
      match decodeOperators pp rest with
      | Except.error e => Except.error e
      | Except.ok ops => Except.ok (op :: ops)

/-- One 128-byte preset slot of src/read.rs `Bank::read`: name at
[118,127), six operator records (reversed afterwards), pitch envelope at
[102,110), global fields at [110,118), ending with `Preset::normalize`. -/
def decodePreset (pp : List Nat) : Except DecodeError Preset :=
  match decodeOperators pp (List.range 6) with
  | Except.error e => Except.error e
  | Except.ok opsRaw =>
    match Envelope.try_from_rates_and_levels ((pp.drop 102).take 4)
        ((pp.drop 106).take 4) with
    | none => Except.error DecodeError.lengthMismatch
    | some pitch_envelope =>
      match Waveform.tryFrom ((pp.getD 116 0 &&& 0b0001110) >>> 1) with
      | none => Except.error DecodeError.invalidWaveform
      | some lfo_waveform =>
        Except.ok (Preset.normalize
          { name := PresetName.from_lossy ((pp.drop 118).take 9)
            operators := opsRaw.reverse
            pitch_envelope
            algorithm_id := pp.getD 110 0
            oscillator_key_sync := (pp.getD 111 0 &&& 0b0001000) >>> 4 = 1
            feedback_level := pp.getD 111 0 &&& 0b0000111
            lfo_speed := pp.getD 112 0
            lfo_delay := pp.getD 113 0
            lfo_pitch_mod_depth := pp.getD 114 0
            lfo_pitch_mod_sensitivity := (pp.getD 116 0 &&& 0b1110000) >>> 4
            lfo_amplitude_mod_depth := pp.getD 115 0
            lfo_waveform
            lfo_key_sync := pp.getD 116 0 &&& 0b0000001 = 1
            transpose := pp.getD 117 0 })

/-- Slot `i` of the body: bytes [128*i, 128*i+128). -/
def slotAt (body : List Nat) (i : Nat) : List Nat :=
  (body.drop (128 * i)).take 128

/-- `body.chunks(128)` on the fixed 4096-byte body: the 32 slots in
order. -/
def slots (body : List Nat) : List (List Nat) :=
  (List.range 32).map (slotAt body)

/-- The preset loop of src/read.rs `Bank::read`: decode each slot in
order, aborting at the first error. -/
def decodeSlots : List (List Nat) → Except DecodeError (List Preset)
  | [] => Except.ok []
  | s :: rest =>
    match decodePreset s with
    | Except.error e => Except.error e
    | Except.ok p =>
      match decodeSlots rest with
      | Except.error e => Except.error e
      | Except.ok ps => Except.ok (p :: ps)

/-- The 4096-byte body of the input: everything after the 6-byte header. -/
def bodyOf (input : List Nat) : List Nat := (input.drop 6).take 4096

namespace Bank

/-- src/read.rs `Bank::read`: header, 4096-byte body, checksum byte,
End-of-SysEx terminator, then the 32 preset slots.  A `read_exact` that
runs out of input is the `truncated` error. -/
def read (input : List Nat) : Except DecodeError (List Preset) :=
  if input.length < 6 then Except.error DecodeError.truncated
  else if input.take 6 ≠ SYSEX_HEADER then Except.error DecodeError.invalidHeader
  else if (input.drop 6).length < 4096 then Except.error DecodeError.truncated
  else if ((input.drop 6).drop 4096).length < 1 then Except.error DecodeError.truncated
  else if checksum (bodyOf input) ≠ ((input.drop 6).drop 4096).getD 0 0 then
    Except.error (DecodeError.checksumMismatch (checksum (bodyOf input))
      (((input.drop 6).drop 4096).getD 0 0))
  else if (((input.drop 6).drop 4096).drop 1).length < 1 then
    Except.error DecodeError.truncated
  else if (((input.drop 6).drop 4096).drop 1).getD 0 0 ≠ 0xF7 then
    Except.error DecodeError.missingTerminator
  else decodeSlots (slots (bodyOf input))

end Bank

/-- src/algorithms.rs `Output`: an operator or the amplifier output. -/
inductive Output where
  | Op1
  | Op2
  | Op3
  | Op4
  | Op5
  | Op6
  | Amplifier
deriving DecidableEq, Repr

/-- src/algorithms.rs `Output::from`: operator IDs 0..5 map to the
operator variants; anything else is `none`.  (`from` is a Lean keyword,
hence the name `fromId`.) -/
def Output.fromId (operator_id : Nat) : Option Output :=
  match operator_id with
  | 0 => some Output.Op1
  | 1 => some Output.Op2
  | 2 => some Output.Op3
  | 3 => some Output.Op4
  | 4 => some Output.Op5
  | 5 => some Output.Op6
  | _ => none

/-- src/algorithms.rs `Algorithm`: routing by operator slot. -/
structure Algorithm where
  routing_by_operator : List (List Output)
deriving DecidableEq, Repr

/-- src/algorithms.rs `Algorithm::routing`: the slot's destination list,
`none` when the slot index is out of range. -/
def Algorithm.routing (a : Algorithm) (operator_id : Nat) : Option (List Output) :=
  a.routing_by_operator.get? operator_id

/-- src/algorithms.rs `Algorithm::is_carrier`: the routing equals the
one-element list holding the amplifier. -/
def Algorithm.is_carrier (a : Algorithm) (operator_id : Nat) : Bool :=
  decide (a.routing operator_id = some [Output.Amplifier])

/-- src/algorithms.rs `Algorithm::is_feedback`: the slot's own operator
identity occurs in its destination list; `false` out of range. -/
def Algorithm.is_feedback (a : Algorithm) (operator_id : Nat) : Bool :=
  ((Output.fromId operator_id).bind (fun output =>
    (a.routing operator_id).map (fun routing => decide (output ∈ routing)))).getD false

/-- src/algorithms.rs `ALGORITHMS`: the 32 fixed routing tables, in
order. -/
def ALGORITHMS : List Algorithm :=
  [ Algorithm.mk [[Output.Amplifier], [Output.Op1], [Output.Amplifier],
      [Output.Op3], [Output.Op4], [Output.Op5, Output.Op6]],
    Algorithm.mk [[Output.Amplifier], [Output.Op1, Output.Op2], [Output.Amplifier],
      [Output.Op3], [Output.Op4], [Output.Op5]],
    Algorithm.mk [[Output.Amplifier], [Output.Op1], [Output.Op2],
      [Output.Amplifier], [Output.Op4], [Output.Op5, Output.Op6]],
    Algorithm.mk [[Output.Amplifier], [Output.Op1], [Output.Op2],
      [Output.Amplifier], [Output.Op4], [Output.Op5, Output.Amplifier]],
    Algorithm.mk [[Output.Amplifier], [Output.Op1], [Output.Amplifier],
      [Output.Op3], [Output.Amplifier], [Output.Op5, Output.Op6]],
    Algorithm.mk [[Output.Amplifier], [Output.Op1], [Output.Amplifier],
      [Output.Op3], [Output.Amplifier], [Output.Op5, Output.Amplifier]],
    Algorithm.mk [[Output.Amplifier], [Output.Op1], [Output.Amplifier],
      [Output.Op3], [Output.Op3], [Output.Op5, Output.Op6]],
    Algorithm.mk [[Output.Amplifier], [Output.Op1], [Output.Amplifier],
      [Output.Op3, Output.Op4], [Output.Op3], [Output.Op5]],
    Algorithm.mk [[Output.Amplifier], [Output.Op1, Output.Op2], [Output.Amplifier],
      [Output.Op3], [Output.Op3], [Output.Op5]],
    Algorithm.mk [[Output.Amplifier], [Output.Op1], [Output.Op2, Output.Op3],
      [Output.Amplifier], [Output.Op4], [Output.Op4]],
    Algorithm.mk [[Output.Amplifier], [Output.Op1], [Output.Op2],
      [Output.Amplifier], [Output.Op4], [Output.Op4, Output.Op6]],
    Algorithm.mk [[Output.Amplifier], [Output.Op1, Output.Op2], [Output.Amplifier],
      [Output.Op3], [Output.Op3], [Output.Op3]],
    Algorithm.mk [[Output.Amplifier], [Output.Op1], [Output.Amplifier],
      [Output.Op3], [Output.Op3], [Output.Op3, Output.Op6]],
    Algorithm.mk [[Output.Amplifier], [Output.Op1], [Output.Amplifier],
      [Output.Op3], [Output.Op4], [Output.Op4, Output.Op6]],
    Algorithm.mk [[Output.Amplifier], [Output.Op1, Output.Op2], [Output.Amplifier],
      [Output.Op3], [Output.Op4], [Output.Op4]],
    Algorithm.mk [[Output.Amplifier], [Output.Op1], [Output.Op1],
      [Output.Op3], [Output.Op1], [Output.Op5, Output.Op6]],
    Algorithm.mk [[Output.Amplifier], [Output.Op1, Output.Op2], [Output.Op1],
      [Output.Op3], [Output.Op1], [Output.Op5]],
    Algorithm.mk [[Output.Amplifier], [Output.Op1], [Output.Op1, Output.Op3],
      [Output.Op1], [Output.Op4], [Output.Op5]],
    Algorithm.mk [[Output.Amplifier], [Output.Op1], [Output.Op2],
      [Output.Amplifier], [Output.Amplifier], [Output.Op4, Output.Op5, Output.Op6]],
    Algorithm.mk [[Output.Amplifier], [Output.Amplifier],
      [Output.Op1, Output.Op2, Output.Op3], [Output.Amplifier],
      [Output.Op4], [Output.Op4]],
    Algorithm.mk [[Output.Amplifier], [Output.Amplifier],
      [Output.Op1, Output.Op2, Output.Op3], [Output.Amplifier],
      [Output.Amplifier], [Output.Op4, Output.Op5]],
    Algorithm.mk [[Output.Amplifier], [Output.Op1], [Output.Amplifier],
      [Output.Amplifier], [Output.Amplifier],
      [Output.Op3, Output.Op4, Output.Op5, Output.Op6]],
    Algorithm.mk [[Output.Amplifier], [Output.Amplifier], [Output.Op2],
      [Output.Amplifier], [Output.Amplifier],
      [Output.Op4, Output.Op5, Output.Op6]],
    Algorithm.mk [[Output.Amplifier], [Output.Amplifier], [Output.Amplifier],
      [Output.Amplifier], [Output.Amplifier],
      [Output.Op3, Output.Op4, Output.Op5, Output.Op6]],
    Algorithm.mk [[Output.Amplifier], [Output.Amplifier], [Output.Amplifier],
      [Output.Amplifier], [Output.Amplifier],
      [Output.Op4, Output.Op5, Output.Op6]],
    Algorithm.mk [[Output.Amplifier], [Output.Amplifier], [Output.Op2],
      [Output.Amplifier], [Output.Op4], [Output.Op4, Output.Op6]],
    Algorithm.mk [[Output.Amplifier], [Output.Amplifier], [Output.Op2, Output.Op3],
      [Output.Amplifier], [Output.Op4], [Output.Op4]],
    Algorithm.mk [[Output.Amplifier], [Output.Op1], [Output.Amplifier],
      [Output.Op3], [Output.Op4, Output.Op5], [Output.Amplifier]],
    Algorithm.mk [[Output.Amplifier], [Output.Amplifier], [Output.Amplifier],
      [Output.Op3], [Output.Amplifier], [Output.Op5, Output.Op6]],
    Algorithm.mk [[Output.Amplifier], [Output.Amplifier], [Output.Amplifier],
      [Output.Op3], [Output.Op4, Output.Op5], [Output.Amplifier]],
    Algorithm.mk [[Output.Amplifier], [Output.Amplifier], [Output.Amplifier],
      [Output.Amplifier], [Output.Amplifier], [Output.Op5, Output.Op6]],
    Algorithm.mk [[Output.Amplifier], [Output.Amplifier], [Output.Amplifier],
      [Output.Amplifier], [Output.Amplifier], [Output.Amplifier, Output.Op6]] ]

/-- src/algorithms.rs `Algorithms::get`. -/
def Algorithms.get (id : Nat) : Option Algorithm := ALGORITHMS.get? id

/-- A complete input: header, body, checksum byte, terminator byte. -/
def mkBank (body : List Nat) (ck tm : Nat) : List Nat :=
  SYSEX_HEADER ++ (body ++ [ck, tm])

/-- An all-zero but well-formed bank: valid header, 4096 zero body bytes
(checksum 0), terminator. -/
def zeroBank : List Nat := mkBank (List.replicate 4096 0) 0 0xF7

/-- The preset decoded from an all-zero 128-byte slot. -/
def zeroSlotPreset : Preset :=
  match decodePreset (List.replicate 128 0) with
  | Except.ok p => p
  | Except.error _ => Preset.defaultValue

/-- The presets decoded from `zeroBank`: 32 copies of the zero-slot
preset. -/
def zeroPresets : List Preset := List.replicate 32 zeroSlotPreset

/-- Body that is zero except byte 12 (the detune/rate-scaling byte of the
first operator record of slot 0), which is 8: raw detune field 1. -/
def detuneBody : List Nat :=
  (List.replicate 12 0 ++ [8]) ++ List.replicate 4083 0

/-- A well-formed bank over `detuneBody`; its checksum is
`(0 - 8) mod 256 = 248`, masked to 7 bits: 120. -/
def detuneBank : List Nat := mkBank detuneBody 120 0xF7

/-- Slot 0 of `detuneBody`. -/
def detuneSlot0 : List Nat :=
  (List.replicate 12 0 ++ [8]) ++ List.replicate 115 0

/-- The preset decoded from `detuneSlot0`. -/
def detuneSlot0Preset : Preset :=
  match decodePreset detuneSlot0 with
  | Except.ok p => p
  | Except.error _ => Preset.defaultValue

/-- The presets decoded from `detuneBank`. -/
def detunePresets : List Preset :=
  detuneSlot0Preset :: List.replicate 31 zeroSlotPreset

/-- Body that is zero except byte 116 of slot 0, which is 12: its 3-bit
LFO waveform code is `(12 & 0b1110) >> 1 = 6`, out of range. -/
def badWaveBody : List Nat :=
  (List.replicate 116 0 ++ [12]) ++ List.replicate 3979 0

/-- A well-formed container over `badWaveBody`; its checksum is
`(0 - 12) mod 256 = 244`, masked to 7 bits: 116. -/
def badWaveBank : List Nat := mkBank badWaveBody 116 0xF7

/-! ## Helper lemmas -/

theorem clampN_idem (x lo hi : Nat) : clampN (clampN x lo hi) lo hi = clampN x lo hi := by
  unfold clampN
  omega

theorem clampI_idem (x lo hi : Int) : clampI (clampI x lo hi) lo hi = clampI x lo hi := by
  unfold clampI
  omega

theorem envelope_normalize_idem (e : Envelope) : e.normalize.normalize = e.normalize := by
  simp only [Envelope.normalize, List.map_map]
  rw [show ((fun x => clampN x 0 99) ∘ fun x => clampN x 0 99) = fun x => clampN x 0 99 from
    funext fun x => clampN_idem x 0 99]

theorem operator_normalize_idem (o : Operator) : o.normalize.normalize = o.normalize := by
  simp only [Operator.normalize, clampN_idem, clampI_idem]

theorem alg_length_six : ∀ a ∈ ALGORITHMS, a.routing_by_operator.length = 6 := by
  decide

theorem fromId_eq_none (s : Nat) (h : 6 ≤ s) : Output.fromId s = none := by
  rcases s with _|_|_|_|_|_|s
  · omega
  · omega
  · omega
  · omega
  · omega
  · omega
  · rfl

theorem and120_shiftRight3 (b : Nat) : (b &&& 120) >>> 3 = (b >>> 3) &&& 15 := by
  apply Nat.eq_of_testBit_eq
  intro j
  rw [Nat.testBit_shiftRight, Nat.testBit_and, Nat.testBit_and, Nat.testBit_shiftRight,
    show (120 : Nat) = 15 <<< 3 from rfl, Nat.testBit_shiftLeft]
  have h3 : 3 ≤ 3 + j := by omega
  simp [h3, Nat.add_sub_cancel_left]

theorem mkBank_take6 (body : List Nat) (ck tm : Nat) :
    (mkBank body ck tm).take 6 = SYSEX_HEADER :=
  List.take_left' rfl

theorem mkBank_drop6 (body : List Nat) (ck tm : Nat) :
    (mkBank body ck tm).drop 6 = body ++ [ck, tm] :=
  List.drop_left' rfl

theorem mkBank_length (body : List Nat) (ck tm : Nat) (hb : body.length = 4096) :
    (mkBank body ck tm).length = 4104 := by
  simp [mkBank, SYSEX_HEADER, hb]

theorem mkBank_body (body : List Nat) (ck tm : Nat) (hb : body.length = 4096) :
    bodyOf (mkBank body ck tm) = body := by
  unfold bodyOf
  rw [mkBank_drop6]
  exact List.take_left' hb

theorem mkBank_tail (body : List Nat) (ck tm : Nat) (hb : body.length = 4096) :
    ((mkBank body ck tm).drop 6).drop 4096 = [ck, tm] := by
  rw [mkBank_drop6]
  exact List.drop_left' hb

theorem read_valid (body : List Nat) (ck tm : Nat) (hb : body.length = 4096)
    (hck : checksum body = ck) (htm : tm = 0xF7) :
    Bank.read (mkBank body ck tm) = decodeSlots (slots body) := by
  have ht6 := mkBank_take6 body ck tm
  have hd6 := mkBank_drop6 body ck tm
  have hbody := mkBank_body body ck tm hb
  have htail := mkBank_tail body ck tm hb
  have hlen := mkBank_length body ck tm hb
  unfold Bank.read
  rw [ht6, hbody, hlen]
  rw [show ((mkBank body ck tm).drop 6).drop 4096 = [ck, tm] from htail]
  rw [hd6]
  simp [hb, hck, htm]

theorem cksum_foldl_zeros (n s : Nat) (hs : s < 256) :
    (List.replicate n 0).foldl (fun sum c => (sum + 256 - c % 256) % 256) s = s := by
  induction n with
  | zero => rfl
  | succ n ih =>
    rw [List.replicate_succ, List.foldl_cons]
    have h0 : (s + 256 - 0 % 256) % 256 = s := by omega
    rw [h0]
    exact ih

theorem checksum_replicate_zero (n : Nat) : checksum (List.replicate n 0) = 0 := by
  unfold checksum
  rw [cksum_foldl_zeros n 0 (by omega)]
  decide

theorem checksum_detuneBody : checksum detuneBody = 120 := by
  unfold checksum detuneBody
  rw [List.foldl_append, List.foldl_append, cksum_foldl_zeros 12 0 (by omega)]
  rw [show List.foldl (fun sum c => (sum + 256 - c % 256) % 256) 0 [8] = 248 from rfl]
  rw [cksum_foldl_zeros 4083 248 (by omega)]
  decide

theorem checksum_badWaveBody : checksum badWaveBody = 116 := by
  unfold checksum badWaveBody
  rw [List.foldl_append, List.foldl_append, cksum_foldl_zeros 116 0 (by omega)]
  rw [show List.foldl (fun sum c => (sum + 256 - c % 256) % 256) 0 [12] = 244 from rfl]
  rw [cksum_foldl_zeros 3979 244 (by omega)]
  decide

theorem slots_length (body : List Nat) : (slots body).length = 32 := by
  unfold slots
  rw [List.length_map, List.length_range]

theorem slots_getD (body : List Nat) (i : Nat) (hi : i < 32) :
    (slots body).getD i [] = slotAt body i := by
  unfold slots
  rw [List.getD_eq_get?, List.get?_map, List.get?_range hi]
  rfl

theorem slots_mem_length (body : List Nat) (hb : body.length = 4096) :
    ∀ s ∈ slots body, s.length = 128 := by
  intro s hs
  unfold slots at hs
  rw [List.mem_map] at hs
  obtain ⟨j, hj, rfl⟩ := hs
  rw [List.mem_range] at hj
  rw [slotAt, List.length_take, List.length_drop, hb]
  omega

theorem slots_replicate_zero :
    slots (List.replicate 4096 0) = List.replicate 32 (List.replicate 128 0) := by
  unfold slots
  rw [List.map_congr_left (g := fun _ => List.replicate 128 0) ?_]
  · rw [List.map_const', List.length_range]
  · intro j hj
    rw [List.mem_range] at hj
    rw [slotAt, List.drop_replicate, List.take_replicate]
    congr 1
    omega

theorem detuneBody_length : detuneBody.length = 4096 := by
  unfold detuneBody
  rw [List.length_append, List.length_append, List.length_replicate,
    List.length_replicate]
  rfl

theorem badWaveBody_length : badWaveBody.length = 4096 := by
  unfold badWaveBody
  rw [List.length_append, List.length_append, List.length_replicate,
    List.length_replicate]
  rfl

set_option maxRecDepth 8000 in
theorem slots_detuneBody :
    slots detuneBody = detuneSlot0 :: List.replicate 31 (List.replicate 128 0) := by
  unfold slots
  rw [show (32 : Nat) = 31 + 1 from rfl, List.range_succ_eq_map, List.map_cons,
    List.map_map]
  congr 1

set_option maxRecDepth 8000 in
theorem slots_badWaveBody :
    slots badWaveBody =
      ((List.replicate 116 0 ++ [12]) ++ List.replicate 11 0) ::
        List.replicate 31 (List.replicate 128 0) := by
  unfold slots
  rw [show (32 : Nat) = 31 + 1 from rfl, List.range_succ_eq_map, List.map_cons,
    List.map_map]
  congr 1

theorem decodeSlots_cons_ok (s : List Nat) (rest : List (List Nat)) (p : Preset)
    (ps : List Preset) (h1 : decodePreset s = Except.ok p)
    (h2 : decodeSlots rest = Except.ok ps) :
    decodeSlots (s :: rest) = Except.ok (p :: ps) := by
  simp [decodeSlots, h1, h2]

theorem decodeSlots_replicate (n : Nat) (s : List Nat) (p : Preset)
    (h : decodePreset s = Except.ok p) :
    decodeSlots (List.replicate n s) = Except.ok (List.replicate n p) := by
  induction n with
  | zero => rfl
  | succ n ih =>
    rw [List.replicate_succ, List.replicate_succ]
    exact decodeSlots_cons_ok s _ p _ h ih

theorem decodeSlots_ok (ss : List (List Nat)) :
    ∀ ps : List Preset, decodeSlots ss = Except.ok ps →
      ps.length = ss.length ∧ ∀ i, i < ss.length →
        decodePreset (ss.getD i []) = Except.ok (ps.getD i Preset.defaultValue) := by
  induction ss with
  | nil =>
    intro ps h
    have : ps = [] := by simpa [decodeSlots] using h.symm
    subst this
    exact ⟨rfl, fun i hi => by simp at hi⟩
  | cons s rest ih =>
    intro ps h
    cases hp : decodePreset s with
    | error e => rw [decodeSlots, hp] at h; cases h
    | ok p =>
      cases hr : decodeSlots rest with
      | error e => rw [decodeSlots, hp, hr] at h; cases h
      | ok ps' =>
        rw [decodeSlots, hp, hr] at h
        have hps : ps = p :: ps' := by
          cases h
          rfl
        subst hps
        obtain ⟨hl, hall⟩ := ih ps' hr
        refine ⟨by simpa using hl, fun i hi => ?_⟩
        cases i with
        | zero => simpa [List.getD_cons_zero] using hp
        | succ i =>
          rw [List.getD_cons_succ, List.getD_cons_succ]
          exact hall i (by simpa using hi)

theorem read_ok_inv (input : List Nat) (ps : List Preset)
    (h : Bank.read input = Except.ok ps) :
    decodeSlots (slots (bodyOf input)) = Except.ok ps := by
  unfold Bank.read at h
  split_ifs at h <;> first
    | exact h
    | cases h

theorem decodeOperator_isOk (po : List Nat) (h : 8 ≤ po.length) :
    ∃ op, decodeOperator po = Except.ok op := by
  unfold decodeOperator Envelope.try_from_rates_and_levels
  have h1 : (po.take 4).length = 4 := by
    rw [List.length_take]; omega
  have h2 : ((po.drop 4).take 4).length = 4 := by
    rw [List.length_take, List.length_drop]; omega
  rw [if_pos ⟨h1, h2⟩]
  exact ⟨_, rfl⟩

theorem decodeOperators_isOk (pp : List Nat) :
    ∀ idx : List Nat,
      (∀ j ∈ idx, ∃ op, decodeOperator (opRecord pp j) = Except.ok op) →
      ∃ ops, decodeOperators pp idx = Except.ok ops := by
  intro idx
  induction idx with
  | nil => exact fun _ => ⟨[], rfl⟩
  | cons j rest ih =>
    intro h
    obtain ⟨op, hop⟩ := h j (List.mem_cons_self j rest)
    obtain ⟨ops, hops⟩ := ih fun k hk => h k (List.mem_cons_of_mem j hk)
    exact ⟨op :: ops, by simp [decodeOperators, hop, hops]⟩

theorem pitch_env_isOk (pp : List Nat) (h : 110 ≤ pp.length) :
    ∃ pe, Envelope.try_from_rates_and_levels ((pp.drop 102).take 4)
      ((pp.drop 106).take 4) = some pe := by
  unfold Envelope.try_from_rates_and_levels
  rw [if_pos ⟨by rw [List.length_take, List.length_drop]; omega,
    by rw [List.length_take, List.length_drop]; omega⟩]
  exact ⟨_, rfl⟩

theorem wavecode_le_7 (b : Nat) : (b &&& 0b0001110) >>> 1 ≤ 7 := by
  have hx : b &&& 0b0001110 ≤ 14 := Nat.and_le_right
  rw [Nat.shiftRight_eq_div_pow]
  omega

theorem decodePreset_char (pp : List Nat) (h : pp.length = 128) :
    (6 ≤ (pp.getD 116 0 &&& 0b0001110) >>> 1 →
      decodePreset pp = Except.error DecodeError.invalidWaveform) ∧
    ((pp.getD 116 0 &&& 0b0001110) >>> 1 < 6 → ∃ p, decodePreset pp = Except.ok p) := by
  have hside : ∀ j ∈ List.range 6,
      ∃ op, decodeOperator (opRecord pp j) = Except.ok op := by
    intro j hj
    rw [List.mem_range] at hj
    apply decodeOperator_isOk
    rw [opRecord, List.length_take, List.length_drop]
    omega
  obtain ⟨ops, hops⟩ := decodeOperators_isOk pp (List.range 6) hside
  obtain ⟨pe, hpe⟩ := pitch_env_isOk pp (by omega)
  constructor
  · intro hbad
    have h7 := wavecode_le_7 (pp.getD 116 0)
    have h67 : (pp.getD 116 0 &&& 0b0001110) >>> 1 = 6 ∨
        (pp.getD 116 0 &&& 0b0001110) >>> 1 = 7 := by omega
    have hw : Waveform.tryFrom ((pp.getD 116 0 &&& 0b0001110) >>> 1) = none := by
      rcases h67 with h6 | h7x
      · rw [h6]; decide
      · rw [h7x]; decide
    unfold decodePreset
    rw [hops, hpe, hw]
  · intro hgood
    have hw : ∃ w, Waveform.tryFrom ((pp.getD 116 0 &&& 0b0001110) >>> 1) = some w := by
      generalize (pp.getD 116 0 &&& 0b0001110) >>> 1 = c at hgood
      rcases c with _|_|_|_|_|_|c
      · exact ⟨_, rfl⟩
      · exact ⟨_, rfl⟩
      · exact ⟨_, rfl⟩
      · exact ⟨_, rfl⟩
      · exact ⟨_, rfl⟩
      · exact ⟨_, rfl⟩
      · omega
    obtain ⟨w, hw⟩ := hw
    unfold decodePreset
    rw [hops, hpe, hw]
    exact ⟨_, rfl⟩

theorem decodeSlots_error_of_bad (ss : List (List Nat))
    (hlen : ∀ s ∈ ss, s.length = 128)
    (hbad : ∃ s ∈ ss, 6 ≤ (s.getD 116 0 &&& 0b0001110) >>> 1) :
    decodeSlots ss = Except.error DecodeError.invalidWaveform := by
  induction ss with
  | nil => obtain ⟨s, hs, -⟩ := hbad; cases hs
  | cons s rest ih =>
    by_cases hb : 6 ≤ (s.getD 116 0 &&& 0b0001110) >>> 1
    · have := (decodePreset_char s (hlen s (List.mem_cons_self s rest))).1 hb
      rw [decodeSlots, this]
    · obtain ⟨p, hp⟩ :=
        (decodePreset_char s (hlen s (List.mem_cons_self s rest))).2 (by omega)
      obtain ⟨s', hs', hbad'⟩ := hbad
      rcases List.mem_cons.mp hs' with rfl | hmem
      · exact absurd hbad' hb
      · have hrest := ih (fun t ht => hlen t (List.mem_cons_of_mem s ht)) ⟨s', hmem, hbad'⟩
        rw [decodeSlots, hp, hrest]

/-! ## Claims -/

/-- C2: the checksum function satisfies `checksum([]) = 0`,
`checksum([42]) = 86`, `checksum([1,2,3,4,5]) = 113`, and its result is
always in [0,127] because of the final 7-bit mask. -/
theorem checksum_examples_and_range :
    checksum [] = 0 ∧ checksum [42] = 86 ∧ checksum [1, 2, 3, 4, 5] = 113 ∧
      ∀ data : List Nat, checksum data ≤ 127 :=
  ⟨rfl, rfl, rfl, fun _ => Nat.and_le_right⟩

/-- C8: preset normalization is idempotent. -/
theorem preset_normalize_idempotent (p : Preset) :
    p.normalize.normalize = p.normalize := by
  simp only [Preset.normalize, List.map_map, clampN_idem, envelope_normalize_idem]
  rw [show (Operator.normalize ∘ Operator.normalize) = Operator.normalize from
    funext fun o => operator_normalize_idem o]

/-- C4: in every one of the 32 routing-table entries, every operator slot
0..5 has a destination list that exists, is non-empty and is
duplicate-free. -/
theorem algorithms_routing_nonempty_nodup :
    ∀ a ∈ ALGORITHMS, ∀ s : Nat, s < 6 →
      (a.routing s).isSome ∧ (a.routing s).getD [] ≠ [] ∧
        ((a.routing s).getD []).Nodup := by
  decide

/-- Witness for C4 at the first entry and slot 0. -/
theorem algorithms_routing_nonempty_nodup_witness :
    ((ALGORITHMS.getD 0 (Algorithm.mk [])).routing 0).isSome ∧
      ((ALGORITHMS.getD 0 (Algorithm.mk [])).routing 0).getD [] ≠ [] ∧
        (((ALGORITHMS.getD 0 (Algorithm.mk [])).routing 0).getD []).Nodup :=
  algorithms_routing_nonempty_nodup (ALGORITHMS.getD 0 (Algorithm.mk []))
    (by decide) 0 (by decide)

/-- C5: for every routing-table entry, `is_carrier` holds exactly on
in-range slots whose destination list is exactly `[Amplifier]`; in
particular the first entry's slot 0 is a carrier. -/
theorem is_carrier_iff (a : Algorithm) (ha : a ∈ ALGORITHMS) (s : Nat) :
    (a.is_carrier s = true ↔
      s < 6 ∧ a.routing s = some [Output.Amplifier]) ∧
      (ALGORITHMS.getD 0 (Algorithm.mk [])).is_carrier 0 = true := by
  refine ⟨?_, by decide⟩
  unfold Algorithm.is_carrier
  rw [decide_eq_true_eq]
  constructor
  · intro h
    refine ⟨?_, h⟩
    have hl := alg_length_six a ha
    have := (List.get?_eq_some.mp h).1
    rw [hl] at this
    exact this
  · exact fun h => h.2

/-- Witness for C5 at the first entry and slot 0. -/
theorem is_carrier_iff_witness :
    (((ALGORITHMS.getD 0 (Algorithm.mk [])).is_carrier 0 = true ↔
      0 < 6 ∧ (ALGORITHMS.getD 0 (Algorithm.mk [])).routing 0 =
        some [Output.Amplifier]) ∧
      (ALGORITHMS.getD 0 (Algorithm.mk [])).is_carrier 0 = true) :=
  is_carrier_iff (ALGORITHMS.getD 0 (Algorithm.mk [])) (by decide) 0

/-- C6: for every routing-table entry, `is_feedback` holds exactly on
in-range slots whose destination list contains the slot's own operator
identity; out-of-range slots give `false`. -/
theorem is_feedback_iff (a : Algorithm) (ha : a ∈ ALGORITHMS) (s : Nat) :
    (a.is_feedback s = true ↔
      s < 6 ∧ ∃ o r, Output.fromId s = some o ∧ a.routing s = some r ∧ o ∈ r) ∧
      (6 ≤ s → a.is_feedback s = false) := by
  have hl := alg_length_six a ha
  constructor
  · constructor
    · intro h
      unfold Algorithm.is_feedback at h
      cases hfrom : Output.fromId s with
      | none => rw [hfrom] at h; simp at h
      | some o =>
        cases hrout : a.routing s with
        | none => rw [hfrom, hrout] at h; simp at h
        | some r =>
          rw [hfrom, hrout] at h
          simp at h
          have hs : s < 6 := by
            have := (List.get?_eq_some.mp hrout).1
            rw [hl] at this
            exact this
          exact ⟨hs, o, r, rfl, rfl, h⟩
    · rintro ⟨hs, o, r, hfrom, hrout, hmem⟩
      unfold Algorithm.is_feedback
      rw [hfrom, hrout]
      simp [hmem]
  · intro h6
    unfold Algorithm.is_feedback
    rw [fromId_eq_none s h6]
    rfl

/-- Witness for C6 at the first entry and slot 5 (which feeds back). -/
theorem is_feedback_iff_witness :
    (((ALGORITHMS.getD 0 (Algorithm.mk [])).is_feedback 5 = true ↔
      5 < 6 ∧ ∃ o r, Output.fromId 5 = some o ∧
        (ALGORITHMS.getD 0 (Algorithm.mk [])).routing 5 = some r ∧ o ∈ r) ∧
      (6 ≤ 5 → (ALGORITHMS.getD 0 (Algorithm.mk [])).is_feedback 5 = false)) :=
  is_feedback_iff (ALGORITHMS.getD 0 (Algorithm.mk [])) (by decide) 5

theorem decodeOperator_ok_inv (po : List Nat) (op : Operator)
    (h : decodeOperator po = Except.ok op) :
    op.detune = 0 - Int.ofNat ((po.getD 12 0 &&& 0b1111000) >>> 3) ∧
    op.rate_scaling = po.getD 12 0 &&& 0b0000111 := by
  unfold decodeOperator at h
  cases he : Envelope.try_from_rates_and_levels (po.take 4) ((po.drop 4).take 4) with
  | none => rw [he] at h; cases h
  | some env =>
    rw [he] at h
    cases h
    exact ⟨rfl, rfl⟩

theorem decodeOperators_ok_inv (pp : List Nat) :
    ∀ (idx : List Nat) (ops : List Operator),
      decodeOperators pp idx = Except.ok ops →
      ops.length = idx.length ∧ ∀ j, j < idx.length →
        decodeOperator (opRecord pp (idx.getD j 0)) =
          Except.ok (ops.getD j Operator.defaultValue) := by
  intro idx
  induction idx with
  | nil =>
    intro ops h
    have : ops = [] := by simpa [decodeOperators] using h.symm
    subst this
    exact ⟨rfl, fun j hj => by simp at hj⟩
  | cons i rest ih =>
    intro ops h
    cases hop : decodeOperator (opRecord pp i) with
    | error e => rw [decodeOperators, hop] at h; cases h
    | ok op =>
      cases hrest : decodeOperators pp rest with
      | error e => rw [decodeOperators, hop, hrest] at h; cases h
      | ok ops' =>
        rw [decodeOperators, hop, hrest] at h
        cases h
        obtain ⟨hl, hall⟩ := ih ops' hrest
        refine ⟨by simpa using hl, fun j hj => ?_⟩
        cases j with
        | zero => simpa [List.getD_cons_zero] using hop
        | succ j =>
          rw [List.getD_cons_succ, List.getD_cons_succ]
          exact hall j (by simpa using hj)

theorem decodePreset_ok_inv (pp : List Nat) (p : Preset)
    (h : decodePreset pp = Except.ok p) :
    ∃ ops, decodeOperators pp (List.range 6) = Except.ok ops ∧
      p.operators = ops.reverse.map Operator.normalize ∧
      p.oscillator_key_sync = decide ((pp.getD 111 0 &&& 0b0001000) >>> 4 = 1) := by
  unfold decodePreset at h
  cases hops : decodeOperators pp (List.range 6) with
  | error e => rw [hops] at h; cases h
  | ok ops =>
    rw [hops] at h
    cases hpe : Envelope.try_from_rates_and_levels ((pp.drop 102).take 4)
        ((pp.drop 106).take 4) with
    | none => rw [hpe] at h; cases h
    | some pe =>
      rw [hpe] at h
      cases hw : Waveform.tryFrom ((pp.getD 116 0 &&& 0b0001110) >>> 1) with
      | none => rw [hw] at h; cases h
      | some w =>
        rw [hw] at h
        cases h
        exact ⟨ops, rfl, rfl, rfl⟩

set_option maxRecDepth 8000 in
theorem zeroSlot_decode :
    decodePreset (List.replicate 128 0) = Except.ok zeroSlotPreset := rfl

set_option maxRecDepth 8000 in
theorem detuneSlot0_decode :
    decodePreset detuneSlot0 = Except.ok detuneSlot0Preset := rfl

theorem zeroBank_read : Bank.read zeroBank = Except.ok zeroPresets := by
  unfold zeroBank zeroPresets
  rw [read_valid _ _ _ (List.length_replicate 4096 0) (checksum_replicate_zero 4096) rfl,
    slots_replicate_zero]
  exact decodeSlots_replicate 32 _ _ zeroSlot_decode

theorem detuneBank_read : Bank.read detuneBank = Except.ok detunePresets := by
  unfold detuneBank detunePresets
  rw [read_valid _ _ _ detuneBody_length checksum_detuneBody rfl, slots_detuneBody]
  exact decodeSlots_cons_ok _ _ _ _ detuneSlot0_decode
    (decodeSlots_replicate 31 _ _ zeroSlot_decode)

/-- C1: a successful decode yields exactly 32 presets, preset `i` being
the decode of the i-th 128-byte slot of the body (slot order preserved);
the `Except` result carries either the full list or the first error, never
a partial list. -/
theorem bank_read_32_presets_slot_order (input : List Nat) (ps : List Preset)
    (h : Bank.read input = Except.ok ps) :
    ps.length = 32 ∧ ∀ i, i < 32 →
      decodePreset (slotAt (bodyOf input) i) =
        Except.ok (ps.getD i Preset.defaultValue) := by
  have h2 := read_ok_inv input ps h
  obtain ⟨hl, hall⟩ := decodeSlots_ok (slots (bodyOf input)) ps h2
  rw [slots_length] at hl
  refine ⟨hl, fun i hi => ?_⟩
  have hx := hall i (by rw [slots_length]; exact hi)
  rwa [slots_getD (bodyOf input) i hi] at hx

/-- Witness for C1 at the all-zero bank. -/
theorem bank_read_32_presets_slot_order_witness :
    zeroPresets.length = 32 ∧ ∀ i, i < 32 →
      decodePreset (slotAt (bodyOf zeroBank) i) =
        Except.ok (zeroPresets.getD i Preset.defaultValue) :=
  bank_read_32_presets_slot_order zeroBank zeroPresets zeroBank_read

/-- C3 counterexample: in `detuneBank` the returned first preset's
operator 5 comes from operator record 0 of slot 0 whose
detune/rate-scaling byte is 8; the claim's formula gives −1 but the
decoder returns detune 0 (normalization clamps the negated value to
[0,14]). -/
theorem detune_claim_counterexample :
    Bank.read detuneBank = Except.ok detunePresets ∧
    (opRecord (slotAt (bodyOf detuneBank) 0) 0).getD 12 0 = 8 ∧
    ((detunePresets.getD 0 Preset.defaultValue).operators.getD 5
      Operator.defaultValue).detune = 0 ∧
    (0 : Int) ≠ 0 - Int.ofNat ((8 >>> 3) &&& 0xF) := by
  refine ⟨detuneBank_read, ?_, ?_, by decide⟩
  · rw [show (detuneBank : List Nat) = mkBank detuneBody 120 0xF7 from rfl,
      mkBank_body _ _ _ detuneBody_length]
    rfl
  · rfl

/-- C3 amended: for every successfully decoded bank, the returned
operator `i` of preset `k` (decoded from operator record `5-i` of slot
`k`) has detune equal to the clamp to [0,14] of −((b >> 3) & 0xF) — hence
always 0 — and rate_scaling equal to b & 0x7, where b is byte 12 of that
record. -/
theorem detune_clamped_and_rate_scaling (input : List Nat) (ps : List Preset)
    (k i : Nat) (h : Bank.read input = Except.ok ps) (hk : k < 32) (hi : i < 6) :
    ((ps.getD k Preset.defaultValue).operators.getD i Operator.defaultValue).detune =
      clampI (0 - Int.ofNat
        (((opRecord (slotAt (bodyOf input) k) (5 - i)).getD 12 0 >>> 3) &&& 0xF)) 0 14 ∧
    ((ps.getD k Preset.defaultValue).operators.getD i
        Operator.defaultValue).rate_scaling =
      (opRecord (slotAt (bodyOf input) k) (5 - i)).getD 12 0 &&& 0x7 := by
  have h2 := read_ok_inv input ps h
  obtain ⟨hl, hall⟩ := decodeSlots_ok (slots (bodyOf input)) ps h2
  have hdp := hall k (by rw [slots_length]; exact hk)
  rw [slots_getD (bodyOf input) k hk] at hdp
  obtain ⟨ops, hops, hopsEq, -⟩ := decodePreset_ok_inv _ _ hdp
  obtain ⟨hlen6, hopsAll⟩ := decodeOperators_ok_inv _ (List.range 6) ops hops
  rw [List.length_range] at hlen6
  obtain ⟨o, ho⟩ : ∃ o, ops.get? (5 - i) = some o := by
    cases hq : ops.get? (5 - i) with
    | none =>
      rw [List.get?_eq_none] at hq
      rw [hlen6] at hq
      omega
    | some o => exact ⟨o, rfl⟩
  have hgetD : ops.getD (5 - i) Operator.defaultValue = o := by
    rw [List.getD_eq_get?, ho]
    rfl
  have hx : (ops.reverse.map Operator.normalize).getD i Operator.defaultValue =
      Operator.normalize o := by
    rw [List.getD_eq_get?, List.get?_map,
      List.get?_reverse (by rw [hlen6]; omega), hlen6,
      show (6 : Nat) - 1 - i = 5 - i from by omega, ho]
    rfl
  have hj := hopsAll (5 - i) (by rw [List.length_range]; omega)
  have hidx : (List.range 6).getD (5 - i) 0 = 5 - i := by
    rw [List.getD_eq_get?, List.get?_range (by omega)]
    rfl
  rw [hidx, hgetD] at hj
  obtain ⟨hdet, hrs⟩ := decodeOperator_ok_inv _ _ hj
  rw [hopsEq, hx]
  constructor
  · show clampI o.detune 0 14 = _
    rw [hdet, and120_shiftRight3]
  · show clampN o.rate_scaling 0 7 = _
    rw [hrs]
    have hb : (opRecord (slotAt (bodyOf input) k) (5 - i)).getD 12 0 &&& 0b0000111 ≤ 7 :=
      Nat.and_le_right
    unfold clampN
    omega

/-- Witness for the amended C3 at `detuneBank`, preset 0, operator 5. -/
theorem detune_clamped_and_rate_scaling_witness :
    ((detunePresets.getD 0 Preset.defaultValue).operators.getD 5
        Operator.defaultValue).detune =
      clampI (0 - Int.ofNat
        (((opRecord (slotAt (bodyOf detuneBank) 0) (5 - 5)).getD 12 0 >>> 3) &&& 0xF))
        0 14 ∧
    ((detunePresets.getD 0 Preset.defaultValue).operators.getD 5
        Operator.defaultValue).rate_scaling =
      (opRecord (slotAt (bodyOf detuneBank) 0) (5 - 5)).getD 12 0 &&& 0x7 :=
  detune_clamped_and_rate_scaling detuneBank detunePresets 0 5 detuneBank_read
    (by decide) (by decide)

/-- C7: LFO waveform codes 0..5 map to the six enum values, codes 6 and 7
are rejected, and a bank whose container checks pass but whose slot `i`
carries waveform code 6 or 7 makes the whole decode fail with
`invalidWaveform`. -/
theorem waveform_code_range_and_bank_failure (input : List Nat) (i : Nat)
    (hlen : 4104 ≤ input.length)
    (hhdr : input.take 6 = SYSEX_HEADER)
    (hck : checksum (bodyOf input) = ((input.drop 6).drop 4096).getD 0 0)
    (hterm : (((input.drop 6).drop 4096).drop 1).getD 0 0 = 0xF7)
    (hi : i < 32)
    (hbad : 6 ≤ ((slotAt (bodyOf input) i).getD 116 0 &&& 0b0001110) >>> 1) :
    (∀ v, v < 6 → (Waveform.tryFrom v).isSome) ∧
    Waveform.tryFrom 6 = none ∧ Waveform.tryFrom 7 = none ∧
    Bank.read input = Except.error DecodeError.invalidWaveform := by
  refine ⟨by decide, by decide, by decide, ?_⟩
  have hb : (bodyOf input).length = 4096 := by
    unfold bodyOf
    rw [List.length_take, List.length_drop]
    omega
  unfold Bank.read
  rw [if_neg (by omega), if_neg (not_ne_iff.mpr hhdr),
    if_neg (by rw [List.length_drop]; omega),
    if_neg (by rw [List.length_drop, List.length_drop]; omega),
    if_neg (not_ne_iff.mpr hck),
    if_neg (by rw [List.length_drop, List.length_drop, List.length_drop]; omega),
    if_neg (not_ne_iff.mpr hterm)]
  apply decodeSlots_error_of_bad
  · exact slots_mem_length _ hb
  · exact ⟨slotAt (bodyOf input) i,
      List.mem_map.mpr ⟨i, List.mem_range.mpr hi, rfl⟩, hbad⟩

/-- Witness for C7 at `badWaveBank` (slot 0 has waveform code 6). -/
theorem waveform_code_range_and_bank_failure_witness :
    (∀ v, v < 6 → (Waveform.tryFrom v).isSome) ∧
    Waveform.tryFrom 6 = none ∧ Waveform.tryFrom 7 = none ∧
    Bank.read badWaveBank = Except.error DecodeError.invalidWaveform :=
  waveform_code_range_and_bank_failure badWaveBank 0
    (by
      show 4104 ≤ (mkBank badWaveBody 116 0xF7).length
      have := mkBank_length badWaveBody 116 0xF7 badWaveBody_length
      omega)
    (mkBank_take6 badWaveBody 116 0xF7)
    (by
      show checksum (bodyOf (mkBank badWaveBody 116 0xF7)) =
        (((mkBank badWaveBody 116 0xF7).drop 6).drop 4096).getD 0 0
      rw [mkBank_body _ _ _ badWaveBody_length, mkBank_tail _ _ _ badWaveBody_length,
        checksum_badWaveBody]
      rfl)
    (by
      show ((((mkBank badWaveBody 116 0xF7).drop 6).drop 4096).drop 1).getD 0 0 = 0xF7
      rw [mkBank_tail _ _ _ badWaveBody_length]
      rfl)
    (by decide)
    (by
      show 6 ≤ ((slotAt (bodyOf (mkBank badWaveBody 116 0xF7)) 0).getD 116 0 &&&
        0b0001110) >>> 1
      rw [mkBank_body _ _ _ badWaveBody_length]
      decide)

/-- C9: envelope construction fails exactly when a rate or level slice
does not have length 4, and inside bank decoding every such slice (the
per-operator record slices and the pitch-envelope slices of any slot of a
4096-byte body) has length exactly 4, so the guard is unreachable and
`decodePreset` never reports `lengthMismatch`. -/
theorem envelope_length_guard_unreachable (body : List Nat) (i : Nat)
    (hb : body.length = 4096) (hi : i < 32) :
    (∀ r l, Envelope.try_from_rates_and_levels r l = none ↔
      ¬(r.length = 4 ∧ l.length = 4)) ∧
    (∀ j, j < 6 →
      ((opRecord (slotAt body i) j).take 4).length = 4 ∧
      (((opRecord (slotAt body i) j).drop 4).take 4).length = 4 ∧
      (Envelope.try_from_rates_and_levels ((opRecord (slotAt body i) j).take 4)
        (((opRecord (slotAt body i) j).drop 4).take 4)).isSome) ∧
    (((slotAt body i).drop 102).take 4).length = 4 ∧
    (((slotAt body i).drop 106).take 4).length = 4 ∧
    (Envelope.try_from_rates_and_levels (((slotAt body i).drop 102).take 4)
      (((slotAt body i).drop 106).take 4)).isSome ∧
    decodePreset (slotAt body i) ≠ Except.error DecodeError.lengthMismatch := by
  have hslot : (slotAt body i).length = 128 := by
    rw [slotAt, List.length_take, List.length_drop, hb]
    omega
  refine ⟨?_, ?_, ?_, ?_, ?_, ?_⟩
  · intro r l
    unfold Envelope.try_from_rates_and_levels
    by_cases hc : r.length = 4 ∧ l.length = 4
    · rw [if_pos hc]
      simp [hc]
    · rw [if_neg hc]
      simp [hc]
  · intro j hj
    have h1 : ((opRecord (slotAt body i) j).take 4).length = 4 := by
      rw [opRecord, List.length_take, List.length_take, List.length_drop, hslot]
      omega
    have h2 : (((opRecord (slotAt body i) j).drop 4).take 4).length = 4 := by
      rw [opRecord, List.length_take, List.length_drop, List.length_take,
        List.length_drop, hslot]
      omega
    refine ⟨h1, h2, ?_⟩
    unfold Envelope.try_from_rates_and_levels
    rw [if_pos ⟨h1, h2⟩]
    rfl
  · rw [List.length_take, List.length_drop, hslot]
    omega
  · rw [List.length_take, List.length_drop, hslot]
    omega
  · obtain ⟨pe, hpe⟩ := pitch_env_isOk (slotAt body i) (by omega)
    rw [hpe]
    rfl
  · have hchar := decodePreset_char (slotAt body i) hslot
    by_cases hbad : 6 ≤ ((slotAt body i).getD 116 0 &&& 0b0001110) >>> 1
    · rw [hchar.1 hbad]
      simp
    · obtain ⟨p, hp⟩ := hchar.2 (by omega)
      rw [hp]
      simp

/-- Witness for C9 at the all-zero body, slot 0. -/
theorem envelope_length_guard_unreachable_witness :
    (∀ r l, Envelope.try_from_rates_and_levels r l = none ↔
      ¬(r.length = 4 ∧ l.length = 4)) ∧
    (∀ j, j < 6 →
      ((opRecord (slotAt (List.replicate 4096 0) 0) j).take 4).length = 4 ∧
      (((opRecord (slotAt (List.replicate 4096 0) 0) j).drop 4).take 4).length = 4 ∧
      (Envelope.try_from_rates_and_levels
        ((opRecord (slotAt (List.replicate 4096 0) 0) j).take 4)
        (((opRecord (slotAt (List.replicate 4096 0) 0) j).drop 4).take 4)).isSome) ∧
    (((slotAt (List.replicate 4096 0) 0).drop 102).take 4).length = 4 ∧
    (((slotAt (List.replicate 4096 0) 0).drop 106).take 4).length = 4 ∧
    (Envelope.try_from_rates_and_levels
      (((slotAt (List.replicate 4096 0) 0).drop 102).take 4)
      (((slotAt (List.replicate 4096 0) 0).drop 106).take 4)).isSome ∧
    decodePreset (slotAt (List.replicate 4096 0) 0) ≠
      Except.error DecodeError.lengthMismatch :=
  envelope_length_guard_unreachable (List.replicate 4096 0) 0
    (List.length_replicate 4096 0) (by decide)

/-- C10: every preset returned by a successful decode has
`oscillator_key_sync = false`, because `(byte & 0b0001000) >> 4` is 0 for
every byte. -/
theorem oscillator_key_sync_always_false (input : List Nat) (ps : List Preset)
    (h : Bank.read input = Except.ok ps) :
    ∀ p ∈ ps, p.oscillator_key_sync = false := by
  intro p hp
  obtain ⟨n, hn⟩ := List.mem_iff_get?.mp hp
  obtain ⟨hlt, -⟩ := List.get?_eq_some.mp hn
  have h2 := read_ok_inv input ps h
  obtain ⟨hl, hall⟩ := decodeSlots_ok (slots (bodyOf input)) ps h2
  have hn32 : n < (slots (bodyOf input)).length := by
    rw [← hl]
    exact hlt
  have hdp := hall n hn32
  have hpd : ps.getD n Preset.defaultValue = p := by
    rw [List.getD_eq_get?, hn]
    rfl
  rw [hpd] at hdp
  obtain ⟨ops, -, -, hosc⟩ := decodePreset_ok_inv _ _ hdp
  rw [hosc]
  have hz : (((slots (bodyOf input)).getD n []).getD 111 0 &&& 0b0001000) >>> 4 = 0 := by
    have hle : ((slots (bodyOf input)).getD n []).getD 111 0 &&& 0b0001000 ≤ 8 :=
      Nat.and_le_right
    rw [Nat.shiftRight_eq_div_pow]
    omega
  rw [hz]
  decide

/-- Witness for C10 at the all-zero bank and its first preset. -/
theorem oscillator_key_sync_always_false_witness :
    zeroSlotPreset.oscillator_key_sync = false :=
  oscillator_key_sync_always_false zeroBank zeroPresets zeroBank_read
    zeroSlotPreset (List.mem_replicate.mpr ⟨by decide, rfl⟩)

end DX7
